import Mathlib

/-!
Verification development for the Flatpak bundle build pipeline
(`src/tooling/bundler/src/bundle/linux/flatpak.rs`), the shell-open program
name resolution (`src/core/tauri/src/api/shell.rs`) and the D-Bus portal
call (`src/core/tauri/src/portals.rs`).

Modelling conventions:
- Filesystem paths are lists of components (`FsPath := List String`); the Rust
  `FsPath::join` with a multi-component literal such as `"bundle/flatpak"` is
  list append with the split components.
- Fallible operations return `Except`/`Option`; `unwrap`/`expect` panics are
  a separate `PanicOr` outcome, never an `Except.error`.
- External effects (filesystem mutation, collaborator asset generation,
  spawned processes) are driven by an explicit environment `Env` deciding
  the outcome of each operation, and the pipeline records the list of
  operations it actually attempted, in order, as a trace.
-/

instance exceptDecEq {ε α : Type} [DecidableEq ε] [DecidableEq α] :
    DecidableEq (Except ε α) := fun a b =>
  match a, b with
  | .ok x, .ok y =>
    if h : x = y then .isTrue (by rw [h]) else .isFalse (by simp [h])
  | .error x, .error y =>
    if h : x = y then .isTrue (by rw [h]) else .isFalse (by simp [h])
  | .ok _, .error _ => .isFalse (by simp)
  | .error _, .ok _ => .isFalse (by simp)

/-- A filesystem path, as its list of components (model of Rust `PathBuf`). -/
abbrev FsPath := List String

/-- String rendering of a path (model of `FsPath::to_string_lossy`). -/
def pathToString (p : FsPath) : String := String.intercalate "/" p

/-- Model of `Path::strip_prefix` (flatpak.rs line 55): succeeds with the
remaining components exactly when `base` is a component-wise prefix. -/
def relativize (p base : FsPath) : Option FsPath :=
  if base.isPrefixOf p then some (p.drop base.length) else none

/-- The `FlatpakConfig` sub-record of the build settings
(fields read by flatpak.rs: `workdir`, `rel_app_dir`, `rel_tauri_dir`,
`skip_list`, `use_node_cli`, `tauri_cli_version`). -/
structure FlatpakConfig where
  workdir : FsPath
  rel_app_dir : FsPath
  rel_tauri_dir : FsPath
  skip_list : List FsPath
  use_node_cli : Bool
  tauri_cli_version : String
deriving DecidableEq

/-- The slice of `Settings` consumed by `bundle_project`
(`settings.bundle_identifier()`, `product_name()`, `main_binary_name()`,
`binaries()` as their names, `external_binaries()`, `binary_arch()`,
`version_string()`, `project_out_directory()`, `flatpak()`). -/
structure Settings where
  bundle_identifier : String
  product_name : String
  main_binary_name : String
  binaries : List String
  external_binaries : List String
  binary_arch : String
  version_string : String
  project_out_directory : FsPath
  flatpak : FlatpakConfig
deriving DecidableEq

/-- `output_dir` (flatpak.rs line 61): `project_out_directory/bundle/flatpak`. -/
def outputDir (s : Settings) : FsPath := s.project_out_directory ++ ["bundle", "flatpak"]

/-- `local_dir` (line 63). -/
def localDir (s : Settings) : FsPath := outputDir s ++ ["local"]

/-- `local_build_dir` (line 64). -/
def localBuildDir (s : Settings) : FsPath := outputDir s ++ ["local_build"]

/-- `manifest_path` (line 72): `local_dir/{bundle_identifier}.json`. -/
def manifestPath (s : Settings) : FsPath :=
  localDir s ++ [s.bundle_identifier ++ ".json"]

/-- `flatpak_repository_dir` (line 78). -/
def repoDir (s : Settings) : FsPath := outputDir s ++ ["repo"]

/-- `flatpak_bundle_path` (lines 81-84): `output_dir/{bundle_identifier}.flatpak`. -/
def bundlePath (s : Settings) : FsPath :=
  outputDir s ++ [s.bundle_identifier ++ ".flatpak"]

/-- `cache_dir` (line 87). -/
def cacheDir (s : Settings) : FsPath := outputDir s ++ [".cache"]

/-- `cargo_cache_dir` (line 88). -/
def cargoCacheDir (s : Settings) : FsPath := cacheDir s ++ ["cargo"]

/-- `yarn_cache_dir` (line 89). -/
def yarnCacheDir (s : Settings) : FsPath := cacheDir s ++ ["yarn"]

/-- `target_cache_dir` (line 90). -/
def targetCacheDir (s : Settings) : FsPath := cacheDir s ++ ["target"]

/-- The architecture code lookup (flatpak.rs lines 122-126). -/
def archCode (a : String) : String :=
  match a with
  | "x86" => "i386"
  | "x86_64" => "amd64"
  | other => other

/-- The `ManifestMap` record (flatpak.rs lines 18-37). -/
structure ManifestMap where
  app_id : String
  app_name : String
  main_binary : String
  deb_package_name : String
  project_out_directory : String
  cargo_cache_dir : String
  yarn_cache_dir : String
  target_cache_dir : String
  workdir : String
  local_dir : String
  rel_app_dir : String
  rel_tauri_dir : String
  rel_project_out_directory : String
  binary : List String
  skip_list : List String
  use_node_cli : Bool
  tauri_cli_version : String
deriving DecidableEq

/-- Construction of the `ManifestMap` (flatpak.rs lines 112-154), given the
already-computed `rel_project_out_directory` (line 53-56). A pure function of
the settings and the relativized output directory. -/
def mkManifestMap (s : Settings) (rel : FsPath) : ManifestMap :=
  { app_id := s.bundle_identifier
    app_name := s.product_name
    main_binary := s.main_binary_name
    deb_package_name :=
      s.main_binary_name ++ "_" ++ s.version_string ++ "_" ++ archCode s.binary_arch
    project_out_directory := pathToString s.project_out_directory
    cargo_cache_dir := pathToString (cargoCacheDir s)
    yarn_cache_dir := pathToString (yarnCacheDir s)
    target_cache_dir := pathToString (targetCacheDir s)
    workdir := pathToString s.flatpak.workdir
    local_dir := pathToString (localDir s)
    rel_app_dir := pathToString s.flatpak.rel_app_dir
    rel_tauri_dir := pathToString s.flatpak.rel_tauri_dir
    rel_project_out_directory := pathToString rel
    binary := s.binaries
    skip_list := s.flatpak.skip_list.map pathToString
    use_node_cli := s.flatpak.use_node_cli
    tauri_cli_version := s.flatpak.tauri_cli_version }

/-- The field-name/value view of a `ManifestMap` as the template engine sees
it (model of the serde serialization of the record at line 162; list-valued
and boolean fields are rendered to strings). -/
def toRecord (m : ManifestMap) : List (String × String) :=
  [("app_id", m.app_id),
   ("app_name", m.app_name),
   ("main_binary", m.main_binary),
   ("deb_package_name", m.deb_package_name),
   ("project_out_directory", m.project_out_directory),
   ("cargo_cache_dir", m.cargo_cache_dir),
   ("yarn_cache_dir", m.yarn_cache_dir),
   ("target_cache_dir", m.target_cache_dir),
   ("workdir", m.workdir),
   ("local_dir", m.local_dir),
   ("rel_app_dir", m.rel_app_dir),
   ("rel_tauri_dir", m.rel_tauri_dir),
   ("rel_project_out_directory", m.rel_project_out_directory),
   ("binary", String.intercalate "\n" m.binary),
   ("skip_list", String.intercalate "\n" m.skip_list),
   ("use_node_cli", if m.use_node_cli then "true" else "false"),
   ("tauri_cli_version", m.tauri_cli_version)]

/-- A template token: literal text or a reference to a record field. -/
inductive Tok where
  | lit (s : String)
  | var (v : String)
deriving DecidableEq

/-- A template is a token sequence. The concrete manifest template is shipped
as a separate repository file (`flatpak/manifest-template`, included with
`include_str!` at line 159) that is not part of the sources here, so the
pipeline is parameterized by the template. -/
abbrev Template := List Tok

/-- The record fields referenced by a template. -/
def tmplVars (tmpl : Template) : List String :=
  tmpl.filterMap fun t =>
    match t with
    | .var v => some v
    | .lit _ => none

/-- Modelled from the spec: strict-mode rendering of the template engine
(the handlebars crate invoked at flatpak.rs lines 157-162 is an external
dependency; `set_strict_mode(true)` at line 161 makes any template reference
to a missing field a hard render error; the error carries the offending
field). -/
def renderTemplate (tmpl : Template) (rec : List (String × String)) :
    Except String String :=
  match tmpl with
  | [] => .ok ""
  | .lit s :: rest => (renderTemplate rest rec).map (fun r => s ++ r)
  | .var v :: rest =>
    match rec.lookup v with
    | none => .error v
    | some val => (renderTemplate rest rec).map (fun r => val ++ r)

/-- The observable operations attempted by `bundle_project`, in source order:
directory cleanup and creation (lines 92-103), collaborator asset generation
(lines 108-109), the manifest file write (line 167), and the three external
processes (lines 179-213). -/
inductive Op where
  | removeLocalDir
  | removeLocalBuildDir
  | createLocalDir
  | createCargoCache
  | createYarnCache
  | createTargetCache
  | genDesktopFile
  | genIconFiles
  | writeManifest
  | gitClone
  | flatpakBuilder
  | flatpakExport
deriving DecidableEq

/-- Pipeline error taxonomy, mirroring the failure modes of `bundle_project`:
`pathRelativization` for a failed `strip_prefix` (line 55), `opFailed` for a
filesystem or collaborator failure, `templateRender` for a strict-mode render
failure carrying the missing field (line 162), and `externalTool` for a
non-zero exit or spawn failure of an external process, carrying the context
string attached with `.context(...)`. -/
inductive BundleError where
  | pathRelativization
  | opFailed (o : Op)
  | templateRender (v : String)
  | externalTool (context : String)
deriving DecidableEq

/-- Context string attached to a checkout-tool failure (flatpak.rs line 184). -/
def cloneCtx : String := "failed to generate Cargo sources file for Flatpak manifest"

/-- Context string attached to a sandbox-build failure (line 201). -/
def buildCtx : String := "failed to build Flatpak"

/-- Context string attached to an export failure (line 213). -/
def exportCtx : String := "failed to export Flatpak bundle"

/-- Environment driving one pipeline run: whether `local_dir` and
`local_build_dir` exist when the run begins (the `exists()` checks at lines
93 and 96), and whether each attempted operation succeeds. -/
structure Env where
  localDirPresent : Bool
  localBuildDirPresent : Bool
  opOk : Op → Bool

/-- Outcome of one pipeline run: the ordered trace of attempted operations,
the manifest file written (path and rendered content), and the returned
value (`Ok(vec![flatpak_bundle_path])`, line 215) or error. -/
structure PipeOut where
  trace : List Op
  written : Option (FsPath × String)
  result : Except BundleError (List FsPath)
deriving DecidableEq

/-- The directory cleanup trace (lines 92-98): each removal happens exactly
when the corresponding directory exists. -/
def removesTrace (env : Env) : List Op :=
  (if env.localDirPresent then [Op.removeLocalDir] else []) ++
  (if env.localBuildDirPresent then [Op.removeLocalBuildDir] else [])

/-- Generic sequential execution of a list of fallible operations
(early-return composition of the `?`-propagated calls): run each operation in
order; on the first failure, stop and report the failed operation. Returns
the trace of attempted operations and the first failure, if any. -/
def runSeq (env : Env) : List Op → List Op × Option Op
  | [] => ([], none)
  | o :: rest =>
    if env.opOk o then
      let r := runSeq env rest
      (o :: r.1, r.2)
    else ([o], some o)

/-- The workspace-setup and asset-generation operations of one run, in
source order (flatpak.rs lines 92-109): the two guarded removals, the four
`create_dir_all` calls, and the two collaborator calls. -/
def setupOps (env : Env) : List Op :=
  removesTrace env ++
  [Op.createLocalDir, Op.createCargoCache, Op.createYarnCache,
   Op.createTargetCache, Op.genDesktopFile, Op.genIconFiles]

/-- Step 3 (flatpak.rs lines 207-215): run `flatpak build-bundle` and, on
success, return the single bundle path. -/
def runExport (s : Settings) (env : Env) :
    List Op × Except BundleError (List FsPath) :=
  ([Op.flatpakExport],
   if env.opOk .flatpakExport then .ok [bundlePath s]
   else .error (.externalTool exportCtx))

/-- Step 2 (lines 190-201): run `flatpak-builder`; on success continue with
the export step. -/
def runBuilder (s : Settings) (env : Env) :
    List Op × Except BundleError (List FsPath) :=
  if env.opOk .flatpakBuilder then
    let e := runExport s env
    (Op.flatpakBuilder :: e.1, e.2)
  else ([Op.flatpakBuilder], .error (.externalTool buildCtx))

/-- Step 1b (lines 179-184): run `git clone` of the shared-modules
repository; on success continue with the build step. -/
def runClone (s : Settings) (env : Env) :
    List Op × Except BundleError (List FsPath) :=
  if env.opOk .gitClone then
    let b := runBuilder s env
    (Op.gitClone :: b.1, b.2)
  else ([Op.gitClone], .error (.externalTool cloneCtx))

/-- Lines 112-184 and onward: build the `ManifestMap` (pure), render the
template in strict mode, write the manifest file, then hand over to the
external-process chain. Returns the additional trace, the manifest write
performed, and the final result. -/
def runFromRender (tmpl : Template) (s : Settings) (env : Env) (rel : FsPath) :
    List Op × Option (FsPath × String) × Except BundleError (List FsPath) :=
  match renderTemplate tmpl (toRecord (mkManifestMap s rel)) with
  | .error v => ([], none, .error (.templateRender v))
  | .ok m =>
    if env.opOk .writeManifest then
      let c := runClone s env
      (Op.writeManifest :: c.1, some (manifestPath s, m), c.2)
    else ([Op.writeManifest], none, .error (.opFailed .writeManifest))

/-- Embedding of `bundle_project` (flatpak.rs lines 39-216) over the
environment model, with the straight-line early-return structure of the
source: `strip_prefix` first (lines 53-56, pure; its failure is the
path-relativization error), then the guarded removals, directory creations
and collaborator calls `generate_desktop_file`/`generate_icon_files`
(lines 92-109, `runSeq` over `setupOps`), then the pure `ManifestMap`
construction, strict-mode render, manifest write and external-process chain
(`runFromRender`, lines 112-216). Template parsing of the fixed embedded
template (line 160) is an `expect` panic path, not an `Err` path, and the
`dbg!`/`info!` calls only print. -/
def bundle_project (tmpl : Template) (s : Settings) (env : Env) : PipeOut :=
  match relativize s.project_out_directory s.flatpak.workdir with
  | none => { trace := [], written := none, result := .error .pathRelativization }
  | some rel =>
    match runSeq env (setupOps env) with
    | (t, some o) => { trace := t, written := none, result := .error (.opFailed o) }
    | (t, none) =>
      let w := runFromRender tmpl s env rel
      { trace := t ++ w.1, written := w.2.1, result := w.2.2 }


/-- Stage index of an observable operation, following the stage decomposition
of the pipeline: 0 workspace setup, 1 collaborator asset generation,
2 manifest rendering and write, 3 dependency source fetch, 4 sandbox build,
5 bundle export. The manifest data construction is pure and contributes no
observable operation. -/
def stageIdx (o : Op) : Nat :=
  match o with
  | .removeLocalDir | .removeLocalBuildDir | .createLocalDir
  | .createCargoCache | .createYarnCache | .createTargetCache => 0
  | .genDesktopFile | .genIconFiles => 1
  | .writeManifest => 2
  | .gitClone => 3
  | .flatpakBuilder => 4
  | .flatpakExport => 5

/-- The stage at which a run ended: on success all six stages ran; on error,
the stage that produced the error. -/
def stageBound (r : Except BundleError (List FsPath)) : Nat :=
  match r with
  | .ok _ => 5
  | .error .pathRelativization => 0
  | .error (.opFailed o) => stageIdx o
  | .error (.templateRender _) => 2
  | .error (.externalTool c) =>
    if c = cloneCtx then 3 else if c = buildCtx then 4 else 5

/-- Filesystem state for the workspace-manager model: the multiset of
existing directory paths (membership is what matters). -/
abbrev FsState := List FsPath

/-- All ancestors of a path, the path itself included (what
`fs::create_dir_all` brings into existence). -/
def ancestorsOf (p : FsPath) : List FsPath :=
  (List.range (p.length + 1)).map (fun n => p.take n)

/-- Model of `fs::create_dir_all`: creates the directory and every missing
parent; succeeds also when the directory already exists. -/
def fsCreateAll (fs : FsState) (p : FsPath) : FsState :=
  fs ++ ancestorsOf p

/-- Filesystem error for the workspace model. -/
inductive FsError where
  | notFound (p : FsPath)
deriving DecidableEq

/-- Model of `fs::remove_dir_all`: fails when the directory does not exist,
otherwise removes the directory and its whole subtree. -/
def removeDirAll (fs : FsState) (p : FsPath) : Except FsError FsState :=
  if p ∈ fs then .ok (fs.filter (fun q => !(p.isPrefixOf q))) else .error (.notFound p)

/-- The four `create_dir_all` calls of the Workspace Manager stage
(flatpak.rs lines 100-103). -/
def wsCreate (s : Settings) (fs : FsState) : FsState :=
  fsCreateAll (fsCreateAll (fsCreateAll (fsCreateAll fs (localDir s))
    (cargoCacheDir s)) (yarnCacheDir s)) (targetCacheDir s)

/-- The Workspace Manager stage (flatpak.rs lines 92-103) on the filesystem
model: remove `local_dir` and `local_build_dir` when they exist, then create
`local_dir` and the three cache directories with `create_dir_all`. -/
def workspaceInit (s : Settings) (fs : FsState) : Except FsError FsState :=
  (if localDir s ∈ fs then removeDirAll fs (localDir s) else .ok fs).bind fun fs1 =>
  (if localBuildDir s ∈ fs1 then removeDirAll fs1 (localBuildDir s) else .ok fs1).bind fun fs2 =>
  .ok (wsCreate s fs2)

/-- The filesystem state after the first guarded removal
(flatpak.rs lines 93-95). -/
def wsClean1 (s : Settings) (fs : FsState) : FsState :=
  if localDir s ∈ fs then fs.filter (fun q => !((localDir s).isPrefixOf q)) else fs

/-- The filesystem state after the second guarded removal (lines 96-98). -/
def wsClean2 (s : Settings) (fs : FsState) : FsState :=
  if localBuildDir s ∈ fs then fs.filter (fun q => !((localBuildDir s).isPrefixOf q)) else fs

/-- The `Program` enumeration (shell.rs lines 32-55). -/
inductive Program where
  | Open
  | Start
  | XdgOpen
  | Gio
  | GnomeOpen
  | KdeOpen
  | WslView
  | Firefox
  | Chrome
  | Chromium
  | Safari
deriving DecidableEq

/-- Options for portal-based open calls (shell.rs lines 25-29). -/
inductive XdgDesktopPortalOptions where
  | Ask
deriving DecidableEq

/-- The `Protocol` enumeration (shell.rs lines 19-22). -/
inductive Protocol where
  | XdgDesktopPortal (o : Option XdgDesktopPortalOptions)
deriving DecidableEq

/-- The `OpenWith` enumeration (shell.rs lines 11-16). -/
inductive OpenWith where
  | program (p : Program)
  | protocol (p : Protocol)
deriving DecidableEq

/-- The error variant produced by name resolution (`super::Error` in
shell.rs line 86; only the variant used there is modelled). -/
inductive ApiError where
  | unknownProgramName (s : String)
deriving DecidableEq

/-- ASCII model of `str::to_lowercase` (the resolution table is ASCII). -/
def toLowercase (s : String) : String := String.mk (s.data.map Char.toLower)

/-- Embedding of `OpenWith::from_str` (shell.rs lines 69-90): match the
lowercased input against the fixed table; the error carries the original,
non-lowercased input string. -/
def OpenWith.from_str (s : String) : Except ApiError OpenWith :=
  match toLowercase s with
  | "open" => .ok (.program .Open)
  | "start" => .ok (.program .Start)
  | "xdg-open" => .ok (.program .XdgOpen)
  | "xdg-desktop-portal" => .ok (.protocol (.XdgDesktopPortal none))
  | "gio" => .ok (.program .Gio)
  | "gnome-open" => .ok (.program .GnomeOpen)
  | "kde-open" => .ok (.program .KdeOpen)
  | "wslview" => .ok (.program .WslView)
  | "firefox" => .ok (.program .Firefox)
  | "chrome" => .ok (.program .Chrome)
  | "google chrome" => .ok (.program .Chrome)
  | "chromium" => .ok (.program .Chromium)
  | "safari" => .ok (.program .Safari)
  | _ => .error (.unknownProgramName s)

/-- The resolution table as data: lowercase name to resolved value
(shell.rs lines 74-85). -/
def programTable : List (String × OpenWith) :=
  [("open", .program .Open),
   ("start", .program .Start),
   ("xdg-open", .program .XdgOpen),
   ("xdg-desktop-portal", .protocol (.XdgDesktopPortal none)),
   ("gio", .program .Gio),
   ("gnome-open", .program .GnomeOpen),
   ("kde-open", .program .KdeOpen),
   ("wslview", .program .WslView),
   ("firefox", .program .Firefox),
   ("chrome", .program .Chrome),
   ("google chrome", .program .Chrome),
   ("chromium", .program .Chromium),
   ("safari", .program .Safari)]

/-- Modelled from the spec: resolution as a single lookup in the fixed
case-insensitive table, the unknown-name error carrying the original input. -/
def tableResolve (s : String) : Except ApiError OpenWith :=
  match programTable.lookup (toLowercase s) with
  | some w => .ok w
  | none => .error (.unknownProgramName s)

/-- Modelled from the spec: the error type of the shell scope
(`ShellScopeError`, defined in scope.rs which is not among the sources);
only its existence matters for the portal call. -/
inductive ShellScopeError where
  | scopeFailure (msg : String)
deriving DecidableEq

/-- Outcome of code that may panic (`unwrap`/`expect`) instead of returning. -/
inductive PanicOr (α : Type) where
  | panicked (site : String)
  | returned (v : α)
deriving DecidableEq

/-- Environment for the D-Bus portal call: whether each unwrapped step
succeeds. -/
structure DBusEnv where
  newSessionOk : Bool
  newMethodCallOk : Bool
  arrayNewOk : Bool
  sendOk : Bool

/-- Embedding of `portal_open_uri` (portals.rs lines 16-46): every fallible
step is unwrapped, so a failure panics; on every returning path the function
falls through to `Ok(())`. The uri and options only shape the message sent. -/
def portal_open_uri (env : DBusEnv) (path : String)
    (options : Option XdgDesktopPortalOptions) :
    PanicOr (Except ShellScopeError Unit) :=
  if !env.newSessionOk then .panicked "Connection new_session unwrap"
  else if !env.newMethodCallOk then .panicked "Message new_method_call unwrap"
  else if !env.arrayNewOk then .panicked "MessageItemArray new unwrap"
  else if !env.sendOk then .panicked "send_with_reply_and_block unwrap"
  else .returned (.ok ())

/-- The build settings of the section 8 scenario: bundle identifier
`app.tauri.example`, main binary `example`, version `1.0.0`, architecture
`x86_64`, workdir `W`, project output directory `W/target/release`. -/
def exampleSettings : Settings :=
  { bundle_identifier := "app.tauri.example"
    product_name := "Example"
    main_binary_name := "example"
    binaries := ["example"]
    external_binaries := []
    binary_arch := "x86_64"
    version_string := "1.0.0"
    project_out_directory := ["W", "target", "release"]
    flatpak :=
      { workdir := ["W"]
        rel_app_dir := ["app"]
        rel_tauri_dir := ["app", "src-tauri"]
        skip_list := []
        use_node_cli := false
        tauri_cli_version := "1.0.0" } }

/-- An environment in which every operation succeeds and the workspace
directories are not present. -/
def envAllOk : Env :=
  { localDirPresent := false
    localBuildDirPresent := false
    opOk := fun _ => true }

/-- Settings whose project output directory is not under the configured
workdir. -/
def mismatchSettings : Settings :=
  { exampleSettings with project_out_directory := ["X", "target", "release"] }

/-- An environment in which the checkout tool fails and everything before it
succeeds. -/
def envCloneFails : Env :=
  { localDirPresent := false
    localBuildDirPresent := false
    opOk := fun o => !(o == Op.gitClone) }

/-! Helper lemmas about the sequential runner and the setup operations. -/

theorem runSeq_fst_pre (env : Env) (l : List Op) : (runSeq env l).1 <+: l := by
  induction l with
  | nil => simp [runSeq]
  | cons o rest ih =>
    unfold runSeq
    split_ifs
    · simpa [List.cons_prefix_cons] using ih
    · simp [List.cons_prefix_cons]

theorem runSeq_none_eq (env : Env) (l : List Op)
    (h : (runSeq env l).2 = none) : (runSeq env l).1 = l := by
  induction l with
  | nil => simp [runSeq]
  | cons o rest ih =>
    unfold runSeq at h ⊢
    split_ifs at h ⊢ with hok
    · simpa using ih (by simpa using h)

theorem runSeq_all_ok (env : Env) (l : List Op)
    (h : ∀ o ∈ l, env.opOk o = true) : runSeq env l = (l, none) := by
  induction l with
  | nil => simp [runSeq]
  | cons o rest ih =>
    unfold runSeq
    rw [if_pos (h o (by simp))]
    rw [ih (fun o ho => h o (by simp [ho]))]

theorem runSeq_fail_mem (env : Env) (l : List Op) (o : Op)
    (h : (runSeq env l).2 = some o) : o ∈ l := by
  induction l with
  | nil => simp [runSeq] at h
  | cons a rest ih =>
    unfold runSeq at h
    split_ifs at h with hok
    · exact List.mem_cons_of_mem a (ih (by simpa using h))
    · simp at h
      simp [h]

theorem runSeq_fail_le (env : Env) (f : Op → Nat) (l : List Op)
    (hp : l.Pairwise (fun a b => f a ≤ f b)) (o : Op)
    (h : (runSeq env l).2 = some o) :
    ∀ p ∈ (runSeq env l).1, f p ≤ f o := by
  induction l with
  | nil => simp [runSeq] at h
  | cons a rest ih =>
    intro p hmem
    unfold runSeq at h hmem
    split_ifs at h hmem with hok
    · simp at hmem
      rcases hmem with hpa | hmem
      · subst hpa
        have ho : o ∈ rest := runSeq_fail_mem env rest o (by simpa using h)
        exact (List.pairwise_cons.mp hp).1 o ho
      · exact ih (List.pairwise_cons.mp hp).2 (by simpa using h) p hmem
    · simp at h hmem
      subst h
      simp [hmem]

theorem setupOps_sorted (env : Env) :
    (setupOps env).Pairwise (fun a b => stageIdx a ≤ stageIdx b) := by
  unfold setupOps removesTrace
  cases env.localDirPresent <;> cases env.localBuildDirPresent <;> decide

theorem setupOps_nodup (env : Env) : (setupOps env).Nodup := by
  unfold setupOps removesTrace
  cases env.localDirPresent <;> cases env.localBuildDirPresent <;> decide

theorem setupOps_stage_le (env : Env) : ∀ p ∈ setupOps env, stageIdx p ≤ 1 := by
  unfold setupOps removesTrace
  cases env.localDirPresent <;> cases env.localBuildDirPresent <;> decide

theorem stage_ge2_notmem_setupOps (env : Env) (o : Op) (h : 2 ≤ stageIdx o) :
    o ∉ setupOps env := fun hm => by
  have := setupOps_stage_le env o hm
  omega

theorem runFromRender_facts (tmpl : Template) (s : Settings) (env : Env) (rel : FsPath) :
    ((runFromRender tmpl s env rel).1.Pairwise (fun a b => stageIdx a ≤ stageIdx b)) ∧
    (runFromRender tmpl s env rel).1.Nodup ∧
    (∀ p ∈ (runFromRender tmpl s env rel).1, 2 ≤ stageIdx p) ∧
    2 ≤ stageBound (runFromRender tmpl s env rel).2.2 ∧
    ((runFromRender tmpl s env rel).1.all
      (fun o => stageIdx o ≤ stageBound (runFromRender tmpl s env rel).2.2)) = true := by
  rcases hw : runFromRender tmpl s env rel with ⟨wt, wrt, wres⟩
  unfold runFromRender runClone runBuilder runExport at hw
  split at hw
  all_goals try split_ifs at hw
  all_goals (injection hw with h1 h2; injection h2 with h2 h3; subst h1; subst h3)
  all_goals refine ⟨?_, ?_, ?_, ?_, ?_⟩ <;>
    simp [stageBound, stageIdx, cloneCtx, buildCtx, exportCtx]

theorem bundle_written_some (tmpl : Template) (s : Settings) (env : Env)
    (p : FsPath) (c : String)
    (h : (bundle_project tmpl s env).written = some (p, c)) :
    p = manifestPath s ∧ ∃ rel,
      relativize s.project_out_directory s.flatpak.workdir = some rel ∧
      renderTemplate tmpl (toRecord (mkManifestMap s rel)) = .ok c := by
  unfold bundle_project at h
  split at h
  · simp at h
  · rename_i rel hrel
    rcases hseq : runSeq env (setupOps env) with ⟨t, fail⟩
    rw [hseq] at h
    cases fail with
    | some o => simp at h
    | none =>
      dsimp only at h
      rcases hw : runFromRender tmpl s env rel with ⟨wt, wrt, wres⟩
      rw [hw] at h
      dsimp only at h
      unfold runFromRender at hw
      split at hw
      · injection hw with h1 h2
        injection h2 with h2 h3
        rw [← h2] at h
        simp at h
      · rename_i m hm
        split_ifs at hw with hwr
        · injection hw with h1 h2
          injection h2 with h2 h3
          rw [← h2] at h
          rw [Option.some_inj] at h
          have hp : manifestPath s = p := congrArg Prod.fst h
          have hc : m = c := congrArg Prod.snd h
          subst hc
          exact ⟨hp.symm, rel, hrel, hm⟩
        · injection hw with h1 h2
          injection h2 with h2 h3
          rw [← h2] at h
          simp at h

theorem renderTemplate_missing (tmpl : Template) (rec : List (String × String)) :
    ∀ v ∈ tmplVars tmpl, rec.lookup v = none →
    ∃ u, renderTemplate tmpl rec = .error u ∧ rec.lookup u = none := by
  induction tmpl with
  | nil => simp [tmplVars]
  | cons tok rest ih =>
    intro v hv hnone
    cases tok with
    | lit str =>
      have hv2 : v ∈ tmplVars rest := by simpa [tmplVars] using hv
      obtain ⟨u, hu, hun⟩ := ih v hv2 hnone
      exact ⟨u, by simp [renderTemplate, hu, Except.map], hun⟩
    | var w =>
      by_cases hw : rec.lookup w = none
      · exact ⟨w, by simp [renderTemplate, hw], hw⟩
      · have hv2 : v ∈ tmplVars rest := by
          have hvw : v = w ∨ v ∈ tmplVars rest := by simpa [tmplVars] using hv
          rcases hvw with he | hmem
          · subst he
            exact absurd hnone hw
          · exact hmem
        obtain ⟨u, hu, hun⟩ := ih v hv2 hnone
        obtain ⟨val, hval⟩ := Option.ne_none_iff_exists'.mp hw
        exact ⟨u, by simp [renderTemplate, hval, hu, Except.map], hun⟩

/-! Helper lemmas for the filesystem model of the Workspace Manager. -/

theorem mem_ancestorsOf_iff (q p : FsPath) : q ∈ ancestorsOf p ↔ q <+: p := by
  unfold ancestorsOf
  simp only [List.mem_map, List.mem_range]
  constructor
  · rintro ⟨n, _, rfl⟩
    exact List.take_prefix n p
  · intro h
    refine ⟨q.length, ?_, ?_⟩
    · have := h.length_le
      omega
    · exact (List.prefix_iff_eq_take.mp h).symm

theorem mem_fsCreateAll_iff (q : FsPath) (fs : FsState) (p : FsPath) :
    q ∈ fsCreateAll fs p ↔ q ∈ fs ∨ q <+: p := by
  simp [fsCreateAll, mem_ancestorsOf_iff]

theorem mem_wsCreate_iff (q : FsPath) (s : Settings) (fs : FsState) :
    q ∈ wsCreate s fs ↔ q ∈ fs ∨ q <+: localDir s ∨ q <+: cargoCacheDir s ∨
      q <+: yarnCacheDir s ∨ q <+: targetCacheDir s := by
  simp [wsCreate, mem_fsCreateAll_iff]
  tauto

theorem lbd_not_pre_localDir (s : Settings) : ¬ (localBuildDir s <+: localDir s) := by
  unfold localBuildDir localDir
  rw [List.prefix_append_right_inj]
  decide

theorem lbd_not_pre_cache (s : Settings) (x : String) :
    ¬ (localBuildDir s <+: cacheDir s ++ [x]) := by
  unfold localBuildDir cacheDir
  rw [List.append_assoc, List.prefix_append_right_inj]
  intro h
  simp [List.singleton_append, List.cons_prefix_cons] at h

theorem removeDirAll_of_mem (fs : FsState) (p : FsPath) (h : p ∈ fs) :
    removeDirAll fs p = .ok (fs.filter (fun q => !(p.isPrefixOf q))) := by
  simp [removeDirAll, h]

theorem except_bind_ok {ε α β : Type} (a : α) (f : α → Except ε β) :
    (Except.ok a : Except ε α).bind f = f a := rfl

theorem workspaceInit_eq (s : Settings) (fs : FsState) :
    workspaceInit s fs = .ok (wsCreate s (wsClean2 s (wsClean1 s fs))) := by
  unfold workspaceInit
  by_cases h1 : localDir s ∈ fs
  · rw [if_pos h1, removeDirAll_of_mem fs (localDir s) h1, except_bind_ok]
    by_cases h2 : localBuildDir s ∈ fs.filter (fun q => !((localDir s).isPrefixOf q))
    · rw [if_pos h2, removeDirAll_of_mem _ _ h2, except_bind_ok]
      unfold wsClean1 wsClean2
      rw [if_pos h1, if_pos h2]
    · rw [if_neg h2, except_bind_ok]
      unfold wsClean1 wsClean2
      rw [if_pos h1, if_neg h2]
  · rw [if_neg h1, except_bind_ok]
    by_cases h2 : localBuildDir s ∈ fs
    · rw [if_pos h2, removeDirAll_of_mem _ _ h2, except_bind_ok]
      unfold wsClean1 wsClean2
      rw [if_neg h1, if_pos h2]
    · rw [if_neg h2, except_bind_ok]
      unfold wsClean1 wsClean2
      rw [if_neg h1, if_neg h2]

theorem lbd_notmem_wsClean2 (s : Settings) (fs : FsState) :
    localBuildDir s ∉ wsClean2 s fs := by
  unfold wsClean2
  split_ifs with h
  · intro hm
    rw [List.mem_filter] at hm
    have h2 := hm.2
    rw [Bool.not_eq_true'] at h2
    have h3 := List.isPrefixOf_iff_prefix.mpr (List.prefix_refl (localBuildDir s))
    rw [h2] at h3
    simp at h3
  · exact h

theorem lbd_notmem_wsCreate (s : Settings) (fs : FsState)
    (h : localBuildDir s ∉ fs) : localBuildDir s ∉ wsCreate s fs := by
  rw [mem_wsCreate_iff]
  push_neg
  exact ⟨h, lbd_not_pre_localDir s, lbd_not_pre_cache s _, lbd_not_pre_cache s _,
    lbd_not_pre_cache s _⟩

/-- C1 counterexample: with the checkout tool failing and every earlier step
succeeding, the pipeline returns the context string of flatpak.rs line 184
("failed to generate Cargo sources file for Flatpak manifest"), not the
context string named by the claim. -/
theorem clone_failure_context_cex :
    (bundle_project [] exampleSettings envCloneFails).result =
      .error (.externalTool "failed to generate Cargo sources file for Flatpak manifest") ∧
    (bundle_project [] exampleSettings envCloneFails).result ≠
      .error (.externalTool "failed to generate dependency sources for bundle manifest") := by
  decide

/-- C1 (amended): if the checkout tool (git clone of the shared-modules
repository) exits non-zero or fails to spawn, `bundle_project` returns an
error wrapped with the stage-identifying context "failed to generate Cargo
sources file for Flatpak manifest", and the sandbox-build tool
(flatpak-builder) is never invoked in that run (nor is the export tool). -/
theorem clone_failure_aborts_before_sandbox_build (tmpl : Template) (s : Settings)
    (env : Env) (rel : FsPath) (m : String)
    (hrel : relativize s.project_out_directory s.flatpak.workdir = some rel)
    (hrender : renderTemplate tmpl (toRecord (mkManifestMap s rel)) = .ok m)
    (hpre : ∀ o, o ≠ Op.gitClone → env.opOk o = true)
    (hclone : env.opOk Op.gitClone = false) :
    (bundle_project tmpl s env).result = .error (.externalTool cloneCtx) ∧
    Op.flatpakBuilder ∉ (bundle_project tmpl s env).trace ∧
    Op.flatpakExport ∉ (bundle_project tmpl s env).trace := by
  have hsetup : ∀ o ∈ setupOps env, env.opOk o = true := by
    intro o ho
    refine hpre o ?_
    intro he
    subst he
    have := setupOps_stage_le env _ ho
    simp [stageIdx] at this
  unfold bundle_project
  rw [hrel, runSeq_all_ok env _ hsetup]
  dsimp only
  unfold runFromRender runClone
  rw [hrender]
  dsimp only
  rw [if_pos (hpre Op.writeManifest (by decide)), if_neg (by simp [hclone])]
  dsimp only
  refine ⟨rfl, ?_, ?_⟩ <;>
    · intro hmem
      rcases List.mem_append.mp hmem with hs | ht
      · exact stage_ge2_notmem_setupOps env _ (by decide) hs
      · simp at ht

/-- C1 witness: the amended theorem applied to the section 8 settings with a
failing checkout tool. -/
theorem clone_failure_aborts_before_sandbox_build_witness :
    (bundle_project [] exampleSettings envCloneFails).result =
      .error (.externalTool cloneCtx) ∧
    Op.flatpakBuilder ∉ (bundle_project [] exampleSettings envCloneFails).trace ∧
    Op.flatpakExport ∉ (bundle_project [] exampleSettings envCloneFails).trace :=
  clone_failure_aborts_before_sandbox_build [] exampleSettings envCloneFails
    ["target", "release"] "" (by decide) (by decide)
    (fun o ho => by cases o <;> first | rfl | exact absurd rfl ho) rfl

/-- C2: the observable operations of a run occur in the stage order
workspace setup, collaborator asset generation, manifest render and write,
dependency source fetch, sandbox build, bundle export; no operation is
attempted twice (no retry); and no operation of a stage later than the stage
that produced the run result is ever attempted (the first failing stage
aborts the run, and a failed run performs no further transitions). The
manifest data construction is pure and contributes no operation. -/
theorem pipeline_stage_order (tmpl : Template) (s : Settings) (env : Env) :
    (bundle_project tmpl s env).trace.Pairwise (fun a b => stageIdx a ≤ stageIdx b) ∧
    (bundle_project tmpl s env).trace.Nodup ∧
    ((bundle_project tmpl s env).trace.all
      (fun o => stageIdx o ≤ stageBound (bundle_project tmpl s env).result)) = true := by
  unfold bundle_project
  split
  · simp
  · rename_i rel hrel
    rcases hseq : runSeq env (setupOps env) with ⟨t, fail⟩
    have hpre : t <+: setupOps env := by
      have h := runSeq_fst_pre env (setupOps env)
      rw [hseq] at h
      exact h
    have hsl := hpre.sublist
    cases fail with
    | some o =>
      dsimp only
      refine ⟨List.Pairwise.sublist hsl (setupOps_sorted env),
              List.Nodup.sublist hsl (setupOps_nodup env), ?_⟩
      rw [List.all_eq_true]
      intro p hp
      simp only [stageBound, decide_eq_true_eq]
      exact runSeq_fail_le env stageIdx (setupOps env) (setupOps_sorted env) o
        (by rw [hseq]) p (by rw [hseq]; exact hp)
    | none =>
      dsimp only
      have ht : t = setupOps env := by
        have h := runSeq_none_eq env (setupOps env) (by rw [hseq])
        rw [hseq] at h
        exact h
      subst ht
      obtain ⟨hwp, hwn, hwge, hwb, hwall⟩ := runFromRender_facts tmpl s env rel
      constructor
      · rw [List.pairwise_append]
        exact ⟨setupOps_sorted env, hwp, fun a ha b hb =>
          le_trans (setupOps_stage_le env a ha) (le_trans (by norm_num) (hwge b hb))⟩
      constructor
      · rw [List.nodup_append]
        refine ⟨setupOps_nodup env, hwn, fun a ha hb => ?_⟩
        have h1 := setupOps_stage_le env a ha
        have h2 := hwge a hb
        omega
      · rw [List.all_eq_true]
        intro p hp
        simp only [decide_eq_true_eq]
        rcases List.mem_append.mp hp with hps | hpw
        · exact le_trans (setupOps_stage_le env p hps) (le_trans (by norm_num) hwb)
        · exact decide_eq_true_eq.mp ((List.all_eq_true.mp hwall) p hpw)

/-- C3: when the project output directory is not a descendant of the
configured workdir, `bundle_project` fails immediately with the
path-relativization error: the trace is empty (no filesystem mutation, no
collaborator call, no external process) and nothing is written. -/
theorem relativization_failure_precedes_all_effects (tmpl : Template)
    (s : Settings) (env : Env)
    (h : (s.flatpak.workdir).isPrefixOf s.project_out_directory = false) :
    bundle_project tmpl s env =
      { trace := [], written := none, result := .error .pathRelativization } := by
  unfold bundle_project relativize
  rw [h]
  simp

/-- C3 witness: the theorem applied to settings whose output directory is
outside the workdir. -/
theorem relativization_failure_precedes_all_effects_witness :
    bundle_project [] mismatchSettings envAllOk =
      { trace := [], written := none, result := .error .pathRelativization } :=
  relativization_failure_precedes_all_effects [] mismatchSettings envAllOk (by decide)

/-- C4: strict-mode rendering. If the template references a field absent
from the record, rendering fails with a template-render error naming a
missing field; a pipeline run whose record is that record writes no manifest
file and never attempts the write operation; and in every run a manifest is
written only with the content of a fully successful render of the actual
record (write-after-full-render). -/
theorem strict_render_failure_blocks_manifest_write (tmpl : Template)
    (rec : List (String × String)) (v : String)
    (hv : v ∈ tmplVars tmpl) (hnone : rec.lookup v = none) :
    (∃ u, renderTemplate tmpl rec = .error u ∧ rec.lookup u = none) ∧
    (∀ s env rel, relativize s.project_out_directory s.flatpak.workdir = some rel →
      toRecord (mkManifestMap s rel) = rec →
      (bundle_project tmpl s env).written = none ∧
      Op.writeManifest ∉ (bundle_project tmpl s env).trace) ∧
    (∀ s env p c, (bundle_project tmpl s env).written = some (p, c) →
      ∃ rel, relativize s.project_out_directory s.flatpak.workdir = some rel ∧
        renderTemplate tmpl (toRecord (mkManifestMap s rel)) = .ok c) := by
  obtain ⟨u, hu, hun⟩ := renderTemplate_missing tmpl rec v hv hnone
  refine ⟨⟨u, hu, hun⟩, ?_, ?_⟩
  · intro s env rel hrel hrec
    unfold bundle_project
    rw [hrel]
    rcases hseq : runSeq env (setupOps env) with ⟨t, fail⟩
    have hpre : t <+: setupOps env := by
      have h := runSeq_fst_pre env (setupOps env)
      rw [hseq] at h
      exact h
    cases fail with
    | some o =>
      dsimp only
      refine ⟨rfl, fun hmem => ?_⟩
      exact stage_ge2_notmem_setupOps env _ (by decide) (hpre.sublist.mem hmem)
    | none =>
      dsimp only
      unfold runFromRender
      rw [hrec, hu]
      dsimp only
      have ht : t = setupOps env := by
        have h := runSeq_none_eq env (setupOps env) (by rw [hseq])
        rw [hseq] at h
        exact h
      subst ht
      refine ⟨rfl, fun hmem => ?_⟩
      rw [List.append_nil] at hmem
      exact stage_ge2_notmem_setupOps env _ (by decide) hmem
  · intro s env p c h
    obtain ⟨hp, rel, hrel, hok⟩ := bundle_written_some tmpl s env p c h
    exact ⟨rel, hrel, hok⟩

/-- C4 witness: the theorem applied to a template referencing a field that
the record of the section 8 settings does not have. -/
theorem strict_render_failure_blocks_manifest_write_witness :
    (bundle_project [Tok.var "nonexistent_field"] exampleSettings envAllOk).written = none ∧
    Op.writeManifest ∉ (bundle_project [Tok.var "nonexistent_field"] exampleSettings envAllOk).trace :=
  (strict_render_failure_blocks_manifest_write [Tok.var "nonexistent_field"]
    (toRecord (mkManifestMap exampleSettings ["target", "release"]))
    "nonexistent_field" (by decide) (by decide)).2.1
    exampleSettings envAllOk ["target", "release"] (by decide) rfl

/-- C5: for every prior filesystem state, the Workspace Manager stage
succeeds (it never fails because `local_dir` or `local_build_dir` already
exists: removals are guarded by existence checks and creation uses the
create-all semantics), and afterwards `local_dir` and the three cache
directories exist while `local_build_dir` does not. Since this holds for
every prior state, rerunning against a leftover `output_dir` also succeeds. -/
theorem workspace_cleanup_idempotent (s : Settings) (fs : FsState) :
    ∃ fs2, workspaceInit s fs = .ok fs2 ∧
      localDir s ∈ fs2 ∧ cargoCacheDir s ∈ fs2 ∧ yarnCacheDir s ∈ fs2 ∧
      targetCacheDir s ∈ fs2 ∧ localBuildDir s ∉ fs2 := by
  rw [workspaceInit_eq]
  refine ⟨_, rfl, ?_, ?_, ?_, ?_,
    lbd_notmem_wsCreate s _ (lbd_notmem_wsClean2 s _)⟩ <;>
    simp [mem_wsCreate_iff, List.prefix_refl]

/-- C6: the derived architecture code is exactly `i386` for `x86`, exactly
`amd64` for `x86_64`, and the input unchanged otherwise; and
`deb_package_name` is the composite `{main_binary}_{version}_{arch_code}`. -/
theorem arch_code_and_deb_package_name :
    archCode "x86" = "i386" ∧ archCode "x86_64" = "amd64" ∧
    (∀ a, a ≠ "x86" → a ≠ "x86_64" → archCode a = a) ∧
    (∀ s rel, (mkManifestMap s rel).deb_package_name =
      s.main_binary_name ++ "_" ++ s.version_string ++ "_" ++ archCode s.binary_arch) := by
  refine ⟨rfl, rfl, ?_, fun s rel => rfl⟩
  intro a h1 h2
  unfold archCode
  split <;> simp_all

/-- C6 witness: the pass-through case at a concrete architecture string and
the composite name for the section 8 settings. -/
theorem arch_code_and_deb_package_name_witness :
    archCode "riscv64" = "riscv64" ∧
    (mkManifestMap exampleSettings ["target", "release"]).deb_package_name =
      "example_1.0.0_amd64" := by
  constructor
  · exact arch_code_and_deb_package_name.2.2.1 "riscv64" (by decide) (by decide)
  · rw [arch_code_and_deb_package_name.2.2.2 exampleSettings ["target", "release"]]
    decide

/-- C7: on a fully successful run, `bundle_project` returns the single path
`{project_out_directory}/bundle/flatpak/{bundle_identifier}.flatpak` and the
manifest is written to
`{project_out_directory}/bundle/flatpak/local/{bundle_identifier}.json`; in
particular the section 8 scenario returns
`[W/target/release/bundle/flatpak/app.tauri.example.flatpak]`. -/
theorem success_returns_single_bundle_path :
    (∀ tmpl s env rel m,
      relativize s.project_out_directory s.flatpak.workdir = some rel →
      renderTemplate tmpl (toRecord (mkManifestMap s rel)) = .ok m →
      (∀ o, env.opOk o = true) →
      (bundle_project tmpl s env).result =
        .ok [s.project_out_directory ++
          ["bundle", "flatpak", s.bundle_identifier ++ ".flatpak"]] ∧
      (bundle_project tmpl s env).written =
        some (s.project_out_directory ++
          ["bundle", "flatpak", "local", s.bundle_identifier ++ ".json"], m)) ∧
    (bundle_project [] exampleSettings envAllOk).result =
      .ok [["W", "target", "release", "bundle", "flatpak", "app.tauri.example.flatpak"]] ∧
    (mkManifestMap exampleSettings ["target", "release"]).deb_package_name =
      "example_1.0.0_amd64" := by
  refine ⟨?_, by decide, by decide⟩
  intro tmpl s env rel m hrel hrender hok
  unfold bundle_project
  rw [hrel, runSeq_all_ok env _ (fun o _ => hok o)]
  dsimp only
  unfold runFromRender runClone runBuilder runExport
  rw [hrender]
  dsimp only
  rw [if_pos (hok Op.writeManifest), if_pos (hok Op.gitClone),
    if_pos (hok Op.flatpakBuilder), if_pos (hok Op.flatpakExport)]
  dsimp only
  constructor
  · simp [bundlePath, outputDir, List.append_assoc]
  · simp [manifestPath, localDir, outputDir, List.append_assoc]

/-- C7 witness: the universal part applied to the section 8 scenario. -/
theorem success_returns_single_bundle_path_witness :
    (bundle_project [] exampleSettings envAllOk).result =
      .ok [exampleSettings.project_out_directory ++
        ["bundle", "flatpak", exampleSettings.bundle_identifier ++ ".flatpak"]] ∧
    (bundle_project [] exampleSettings envAllOk).written =
      some (exampleSettings.project_out_directory ++
        ["bundle", "flatpak", "local", exampleSettings.bundle_identifier ++ ".json"], "") :=
  success_returns_single_bundle_path.1 [] exampleSettings envAllOk
    ["target", "release"] "" (by decide) (by decide) (fun o => rfl)

/-- C8: the manifest data construction is pure and deterministic. Any two
runs from the same settings and template, whatever the filesystem state and
operation outcomes of their environments, that write a manifest write it to
the same path (the `local_dir` manifest path) with byte-identical content:
the record rendered depends only on the settings. -/
theorem manifest_data_deterministic (tmpl : Template) (s : Settings)
    (env1 env2 : Env) (p1 : FsPath) (c1 : String) (p2 : FsPath) (c2 : String)
    (h1 : (bundle_project tmpl s env1).written = some (p1, c1))
    (h2 : (bundle_project tmpl s env2).written = some (p2, c2)) :
    p1 = manifestPath s ∧ p1 = p2 ∧ c1 = c2 := by
  obtain ⟨hp1, rel1, hrel1, hr1⟩ := bundle_written_some tmpl s env1 p1 c1 h1
  obtain ⟨hp2, rel2, hrel2, hr2⟩ := bundle_written_some tmpl s env2 p2 c2 h2
  rw [hrel1] at hrel2
  injection hrel2 with he
  subst he
  rw [hr1] at hr2
  injection hr2 with he2
  exact ⟨hp1, hp1.trans hp2.symm, he2⟩

/-- C8 witness: two identical-settings runs through the all-success
environment write the same manifest. -/
theorem manifest_data_deterministic_witness :
    manifestPath exampleSettings = manifestPath exampleSettings ∧
    manifestPath exampleSettings = manifestPath exampleSettings ∧
    ("" : String) = "" :=
  manifest_data_deterministic [] exampleSettings envAllOk envAllOk
    (manifestPath exampleSettings) "" (manifestPath exampleSettings) ""
    (by decide) (by decide)

/-- C9 counterexample: `from_str` is not invariant under lowercasing of its
input, because the unknown-name error carries the original string: on
"FooBar" it returns the error with "FooBar", while on the lowercased input
it returns the error with "foobar". -/
theorem from_str_lowercase_cex :
    OpenWith.from_str "FooBar" ≠ OpenWith.from_str (toLowercase "FooBar") ∧
    OpenWith.from_str "FooBar" = .error (.unknownProgramName "FooBar") ∧
    toLowercase "FooBar" = "foobar" ∧
    OpenWith.from_str "foobar" = .error (.unknownProgramName "foobar") := by
  decide

/-- C9 (amended): resolution is a single lookup in the fixed
case-insensitive table: `from_str s` succeeds with the table entry for the
lowercase of `s` exactly when that lowercase is one of the thirteen fixed
names, and otherwise returns the unknown-program-name error carrying the
original string `s` (so two inputs with the same lowercase share the same
success result but not necessarily the same error value). -/
theorem from_str_table_resolution (s : String) :
    OpenWith.from_str s = tableResolve s := by
  unfold OpenWith.from_str tableResolve
  split <;> simp_all [programTable, List.lookup, ← beq_eq_false_iff_ne]

/-- C10: `portal_open_uri` never returns its declared error value: every
fallible step is unwrapped (a failure panics instead of returning), and on
every returning path the result is `Ok(())` — the `Err` branch of its result
type is unreachable. -/
theorem portal_open_uri_never_errors (env : DBusEnv) (path : String)
    (options : Option XdgDesktopPortalOptions) (e : ShellScopeError) :
    portal_open_uri env path options ≠ .returned (.error e) := by
  unfold portal_open_uri
  split_ifs <;> simp
